import Mathlib

/-!
Verification of the simulation-clock / event-timer / telemetry-logger trio
of `pysimenv/core/util.py`.

Modelling conventions:
* Python floats carrying ordinary time values are modelled as rationals (ℚ).
* The special value `-np.inf` (the initial `last_event_time` of a `Timer`)
  is modelled by `none : Option ℚ`; the two comparisons the source performs
  on `last_event_time` are given their IEEE semantics at `-inf` explicitly
  (`withinRes` and `elapsedGE` below).
* Python `dict`s are modelled as insertion-ordered association lists.
* Operations that can raise are modelled as returning `Option Err × State`:
  the first component is the raised exception (if any) and the second the
  state of the object after the call.  In every raising path of the source
  the `raise` (or the failing attribute access) happens before any field
  assignment, so the state returned in an error case is the input state.
-/

namespace PySimEnv

/-- `SimClock` from `util.py`: current time and the time resolution. -/
structure SimClock where
  time : ℚ
  time_res : ℚ
deriving DecidableEq, Repr

/-- `SimClock.__init__` with explicit arguments (defaults `0` and `1e-6`). -/
def SimClock.init (time : ℚ) (time_res : ℚ) : SimClock :=
  { time := time, time_res := time_res }

/-- `SimClock.reset`: sets `time = 0`. -/
def SimClock.reset (c : SimClock) : SimClock :=
  { c with time := 0 }

/-- `SimClock.elapse`: `time += dt`. -/
def SimClock.elapse (c : SimClock) (dt : ℚ) : SimClock :=
  { c with time := c.time + dt }

/-- Exceptions the `Timer` methods can raise. -/
inductive Err
  | noSimClock   -- `NoSimClockError` raised by `turn_on`
  | attrError    -- `AttributeError` from `self.sim_clock.time` when `sim_clock is None`
deriving DecidableEq, Repr

/-- `abs(time - last_event_time) <= time_res` as the source computes it,
with `last_event_time = -inf` encoded as `none`: `abs(t - (-inf)) = inf`,
and `inf <= res` is false for any float `res`. -/
def withinRes (t : ℚ) (last : Option ℚ) (res : ℚ) : Bool :=
  match last with
  | none => false
  | some l => decide (|t - l| ≤ res)

/-- `time - last_event_time >= bound` as the source computes it, with
`last_event_time = -inf` encoded as `none`: `t - (-inf) = inf`, and
`inf >= bound` is true for any float `bound`. -/
def elapsedGE (t : ℚ) (last : Option ℚ) (bound : ℚ) : Bool :=
  match last with
  | none => true
  | some l => decide (bound ≤ t - l)

/-- `Timer` from `util.py`.  `sim_clock` holds the attached clock (by value:
the source holds a reference, and none of the timer operations mutates the
clock, so advancing the shared clock is modelled by re-attaching the updated
clock value).  `last_event_time = none` encodes `-np.inf`. -/
structure Timer where
  sim_clock : Option SimClock
  event_time_interval : ℚ
  is_operating : Bool
  is_event : Bool
  last_event_time : Option ℚ
deriving DecidableEq, Repr

/-- `Timer.__init__(event_time_interval)`. -/
def Timer.init (event_time_interval : ℚ) : Timer :=
  { sim_clock := none
    event_time_interval := event_time_interval
    is_operating := false
    is_event := false
    last_event_time := none }

/-- `Timer()` with the default argument `event_time_interval = -1`. -/
def Timer.initDefault : Timer := Timer.init (-1)

/-- `Timer.attach_sim_clock`. -/
def Timer.attach_sim_clock (t : Timer) (c : SimClock) : Timer :=
  { t with sim_clock := some c }

/-- `Timer.detach_sim_clock`: `self.sim_clock = None`. -/
def Timer.detach_sim_clock (t : Timer) : Timer :=
  { t with sim_clock := none }

/-- `Timer.turn_on(event_time_interval=None)`: raises `NoSimClockError`
before any mutation when no clock is attached; otherwise optionally
overwrites the interval, then sets `is_operating = True`, `is_event = True`,
`last_event_time = sim_clock.time`. -/
def Timer.turn_on (t : Timer) (event_time_interval : Option ℚ) : Option Err × Timer :=
  match t.sim_clock with
  | none => (some Err.noSimClock, t)
  | some c =>
      let t1 :=
        match event_time_interval with
        | none => t
        | some v => { t with event_time_interval := v }
      (none, { t1 with
                is_operating := true
                is_event := true
                last_event_time := some c.time })

/-- `Timer.turn_off`. -/
def Timer.turn_off (t : Timer) : Timer :=
  { t with is_operating := false, is_event := false, last_event_time := none }

/-- `Timer.reset`: calls `turn_off`. -/
def Timer.reset (t : Timer) : Timer := t.turn_off

/-- `Timer.forward`.  When operating, the very first statement reads
`self.sim_clock.time`, which raises `AttributeError` (before any mutation)
if the clock has been detached. -/
def Timer.forward (t : Timer) : Option Err × Timer :=
  if t.is_operating then
    match t.sim_clock with
    | none => (some Err.attrError, t)
    | some c =>
        if withinRes c.time t.last_event_time c.time_res then
          (none, t)
        else if t.event_time_interval = -1 then
          (none, { t with is_event := true, last_event_time := some c.time })
        else if elapsedGE c.time t.last_event_time (t.event_time_interval - c.time_res) then
          (none, { t with is_event := true, last_event_time := some c.time })
        else
          (none, { t with is_event := false })
  else (none, t)

/-- The operations of the `Timer` lifecycle (construction is `Timer.init`).
For the fallible operations the post-call state is used, which equals the
pre-call state whenever they raise. -/
inductive TimerOp
  | reset
  | attach (c : SimClock)
  | turnOn (i : Option ℚ)
  | turnOff
  | detach
  | forward
deriving DecidableEq, Repr

/-- Apply one lifecycle operation to a timer (post-call state). -/
def Timer.apply (t : Timer) (op : TimerOp) : Timer :=
  match op with
  | TimerOp.reset => t.reset
  | TimerOp.attach c => t.attach_sim_clock c
  | TimerOp.turnOn i => (t.turn_on i).2
  | TimerOp.turnOff => t.turn_off
  | TimerOp.detach => t.detach_sim_clock
  | TimerOp.forward => t.forward.2

/-- The spec's timer invariant: whenever `is_operating` is false, `is_event`
is false and `last_event_time` is `-inf`. -/
def TimerInv (t : Timer) : Prop :=
  t.is_operating = false → t.is_event = false ∧ t.last_event_time = none

/-- `Logger` from `util.py`.  `data` is the Python dict `key -> list of
recorded values`, modelled as an insertion-ordered association list (a new
key goes to the end, matching dict insertion order).  Recorded values are
modelled as rationals.  In the source `data` is only ever assigned a dict
(`dict()` in `__init__` and `clear`), never `None`, so it is modelled as a
plain list and the source's dead `data is None` guards are noted where they
occur. -/
structure Logger where
  data : List (String × List ℚ)
  is_operating : Bool
deriving DecidableEq, Repr

/-- `Logger.__init__`: empty dict, `is_operating = True`. -/
def Logger.init : Logger :=
  { data := [], is_operating := true }

/-- `Logger.turn_on`. -/
def Logger.turn_on (lg : Logger) : Logger :=
  { lg with is_operating := true }

/-- `Logger.turn_off`. -/
def Logger.turn_off (lg : Logger) : Logger :=
  { lg with is_operating := false }

/-- `Logger.clear`: `self.data = dict()`. -/
def Logger.clear (lg : Logger) : Logger :=
  { lg with data := [] }

/-- `Logger.is_empty`: `(self.data is None) or (len(self.data) == 0)`;
the `is None` disjunct is dead since `data` is always a dict. -/
def Logger.is_empty (lg : Logger) : Bool :=
  lg.data.isEmpty

/-- Append one value to one key's list, creating the list on `KeyError`
(a fresh key is inserted at the end, matching dict insertion order). -/
def dictAppend (d : List (String × List ℚ)) (k : String) (v : ℚ) :
    List (String × List ℚ) :=
  match d with
  | [] => [(k, [v])]
  | (k1, vs) :: rest =>
      if k1 = k then (k1, vs ++ [v]) :: rest
      else (k1, vs) :: dictAppend rest k v

/-- Look a key up in the dict. -/
def dictFind (d : List (String × List ℚ)) (k : String) : Option (List ℚ) :=
  match d with
  | [] => none
  | (k1, vs) :: rest => if k1 = k then some vs else dictFind rest k

/-- `Logger.append(**kwargs)`: when operating, append each supplied value to
its key's list in keyword order. -/
def Logger.append (lg : Logger) (kwargs : List (String × ℚ)) : Logger :=
  if lg.is_operating then
    { lg with data := kwargs.foldl (fun d kv => dictAppend d kv.1 kv.2) lg.data }
  else lg

/-- Result of `Logger.get`: Python `None`, a numpy array of one key's list,
a dict of arrays, or a raised exception. -/
inductive GetResult
  | noneVal                               -- `None`
  | arr (xs : List ℚ)                     -- `np.array(self.data[key])`
  | dict (m : List (String × List ℚ))     -- `{key: np.array(...) for key in args}`
  | typeError                             -- subscripting a `dict_keys` object
  | keyError                              -- `self.data[key]` with a missing key
deriving DecidableEq, Repr

/-- `Logger.get(*args)`.  With no argument the source rebinds
`args = self.data.keys()` — a `dict_keys` view, not a tuple — so when the
dict holds exactly one key the `len(args) == 1` branch evaluates `args[0]`
and raises `TypeError` (`dict_keys` is not subscriptable).  With two or more
keys the dict-comprehension branch iterates the view and succeeds. -/
def Logger.get (lg : Logger) (args : List String) : GetResult :=
  if lg.is_empty then GetResult.noneVal
  else
    match args with
    | [] =>
        if lg.data.length = 1 then GetResult.typeError
        else GetResult.dict lg.data
    | [k] =>
        match dictFind lg.data k with
        | none => GetResult.keyError
        | some vs => GetResult.arr vs
    | ks =>
        if ks.all (fun k => (dictFind lg.data k).isSome) then
          GetResult.dict (ks.map fun k => (k, (dictFind lg.data k).getD []))
        else GetResult.keyError

/-- Result of `Logger.len`: a length, or the `StopIteration` raised by
`next(iter(self.data.keys()))` on an empty dict. -/
inductive LenResult
  | ok (n : ℕ)
  | stopIteration
deriving DecidableEq, Repr

/-- `Logger.len`.  The source's `if self.data is None: return 0` guard is
dead (`data` is always a dict), so on an empty dict `first_key =
next(iter(self.data.keys()))` raises `StopIteration`; otherwise the length
of the first key's list is returned. -/
def Logger.len (lg : Logger) : LenResult :=
  match lg.data with
  | [] => LenResult.stopIteration
  | (_, vs) :: _ => LenResult.ok vs.length

/-- C1: the claim says `get()` with no key returns a mapping of every key,
including when exactly one key has been recorded.  In the code, `get()`
with exactly one recorded key rebinds `args` to the `dict_keys` view and
then evaluates `args[0]` in the `len(args) == 1` branch, raising
`TypeError`; with two keys the mapping is returned and on a never-recorded
logger `None` is returned. -/
theorem C1_get_no_arg_single_key_raises :
    (Logger.init.append [("x", 1)]).get [] = GetResult.typeError ∧
    (Logger.init.append [("x", 1), ("y", 2)]).get [] =
      GetResult.dict [("x", [1]), ("y", [2])] ∧
    Logger.init.get [] = GetResult.noneVal :=
  ⟨rfl, rfl, rfl⟩

/-- C2: the claim says `len()` returns 0 on an empty logger.  In the code,
`data` is always a dict (never `None`), so the `is None` guard is dead and
a fresh logger raises `StopIteration` from `next(iter({}.keys()))`; on a
non-empty logger the length of the first key in insertion order is
returned. -/
theorem C2_len_empty_raises :
    Logger.init.len = LenResult.stopIteration ∧
    (Logger.init.append [("x", 1), ("y", 2)]).len = LenResult.ok 1 :=
  ⟨rfl, rfl⟩

/-- C3: for an active timer with an attached clock, a finite interval
(not the sentinel `-1`) and the re-entrancy guard not triggered
(`|clock.time - last_event_time| > time_res`, which `withinRes ... = false`
encodes, including `last_event_time = -inf`), one `forward()` call sets
`is_event = true` and `last_event_time = clock.time` exactly when
`clock.time - last_event_time >= event_time_interval - time_res` (which
`elapsedGE` encodes), and otherwise sets `is_event = false` leaving
`last_event_time` unchanged; no exception is raised. -/
theorem C3_forward_finite_interval (t : Timer) (c : SimClock)
    (hop : t.is_operating = true) (hc : t.sim_clock = some c)
    (hint : t.event_time_interval ≠ -1)
    (hg : withinRes c.time t.last_event_time c.time_res = false) :
    t.forward = (none,
      if elapsedGE c.time t.last_event_time (t.event_time_interval - c.time_res)
      then { t with is_event := true, last_event_time := some c.time }
      else { t with is_event := false }) := by
  cases h2 : elapsedGE c.time t.last_event_time (t.event_time_interval - c.time_res) <;>
    simp [Timer.forward, hop, hc, hg, hint, h2]

/-- Witness for C3 at a concrete input: interval 10, clock at time 1,
last event at time 0, elapsed 1 < 10 - 1e-6, so the call clears
`is_event` and keeps `last_event_time`. -/
theorem C3_witness :
    ({ sim_clock := some { time := 2, time_res := 1 },
       event_time_interval := 10, is_operating := true, is_event := true,
       last_event_time := some 0 } : Timer).forward =
      (none,
        if elapsedGE 2 (some 0) (10 - 1)
        then { sim_clock := some { time := 2, time_res := 1 },
               event_time_interval := 10, is_operating := true, is_event := true,
               last_event_time := some 2 }
        else { sim_clock := some { time := 2, time_res := 1 },
               event_time_interval := 10, is_operating := true, is_event := false,
               last_event_time := some 0 }) :=
  C3_forward_finite_interval
    { sim_clock := some { time := 2, time_res := 1 },
      event_time_interval := 10, is_operating := true, is_event := true,
      last_event_time := some 0 }
    { time := 2, time_res := 1 }
    rfl rfl (by norm_num) (by norm_num [withinRes, abs_le])

/-- Helper: `forward` never changes `is_operating`. -/
theorem Timer.forward_is_operating (t : Timer) :
    (t.forward.2).is_operating = t.is_operating := by
  obtain ⟨sc, ti, o, ev, le⟩ := t
  cases o
  · rfl
  · cases sc
    · rfl
    · simp only [Timer.forward]
      split
      · split
        · rfl
        · split
          · rfl
          · split <;> rfl
      · rfl

/-- Helper: `forward` on a non-operating timer is a no-op. -/
theorem Timer.forward_of_not_operating (t : Timer) (h : t.is_operating = false) :
    t.forward = (none, t) := by
  simp [Timer.forward, h]

/-- C4: `forward` is idempotent per distinct clock time on an active timer
with an attached clock (whose resolution is nonnegative, as the data model
requires): when `|clock.time - last_event_time| <= time_res` the call
returns leaving the whole state (in particular `is_event` and
`last_event_time`) exactly as it was, and running `forward` on the result
of `forward` produces the same outcome as a single `forward`. -/
theorem C4_forward_idempotent (t : Timer) (c : SimClock)
    (hc : t.sim_clock = some c) (hres : 0 ≤ c.time_res)
    (hop : t.is_operating = true) :
    (withinRes c.time t.last_event_time c.time_res = true → t.forward = (none, t)) ∧
    (t.forward.2).forward = t.forward := by
  have hguard_self : withinRes c.time (some c.time) c.time_res = true := by
    simp only [withinRes, sub_self, abs_zero, decide_eq_true_eq]
    exact hres
  constructor
  · intro hg
    simp [Timer.forward, hop, hc, hg]
  · cases hg : withinRes c.time t.last_event_time c.time_res
    · by_cases hint : t.event_time_interval = -1
      · simp [Timer.forward, hop, hc, hg, hint, hguard_self]
      · cases he : elapsedGE c.time t.last_event_time (t.event_time_interval - c.time_res)
        · simp [Timer.forward, hop, hc, hg, hint, he]
        · simp [Timer.forward, hop, hc, hg, hint, he, hguard_self]
    · simp [Timer.forward, hop, hc, hg]

/-- Witness for C4: a timer on the step right after activation (clock at
time 0, resolution 1, last event at time 0): the guard is triggered, so
one call changes nothing and a second call agrees with the first. -/
theorem C4_witness :
    (({ sim_clock := some { time := 0, time_res := 1 },
        event_time_interval := -1,
        is_operating := true,
        is_event := true,
        last_event_time := some 0 } : Timer).forward =
      (none,
        { sim_clock := some { time := 0, time_res := 1 },
          event_time_interval := -1,
          is_operating := true,
          is_event := true,
          last_event_time := some 0 })) ∧
    ((({ sim_clock := some { time := 0, time_res := 1 },
         event_time_interval := -1,
         is_operating := true,
         is_event := true,
         last_event_time := some 0 } : Timer).forward.2).forward =
      ({ sim_clock := some { time := 0, time_res := 1 },
         event_time_interval := -1,
         is_operating := true,
         is_event := true,
         last_event_time := some 0 } : Timer).forward) :=
  ⟨(C4_forward_idempotent _ _ rfl (by norm_num) rfl).1
      (by norm_num [withinRes, abs_le]),
   (C4_forward_idempotent _ _ rfl (by norm_num) rfl).2⟩

/-- C5: `turn_on` on a timer with no attached clock raises
`NoSimClockError` before any field assignment, so the post-call state is
exactly the pre-call state (all fields keep their prior values), with or
without an interval argument. -/
theorem C5_turn_on_without_clock_fails (t : Timer) (i : Option ℚ)
    (h : t.sim_clock = none) :
    t.turn_on i = (some Err.noSimClock, t) := by
  simp [Timer.turn_on, h]

/-- Witness for C5: a freshly constructed timer with interval 5 and an
explicit interval argument. -/
theorem C5_witness :
    (Timer.init 5).turn_on (some 2) = (some Err.noSimClock, Timer.init 5) :=
  C5_turn_on_without_clock_fails (Timer.init 5) (some 2) rfl

/-- C6 counterexample: the claim says `forward()` on a still-active timer
whose clock was removed by `detach_sim_clock` does not fail; in the code
the first statement reads `self.sim_clock.time` and raises
`AttributeError`.  Concretely: default timer, attach a clock at time 0,
turn on, detach, forward. -/
theorem C6_counterexample :
    ((((Timer.initDefault.attach_sim_clock
        { time := 0, time_res := 1/1000000 }).turn_on none).2).detach_sim_clock).forward.1
      = some Err.attrError :=
  rfl

/-- C6 amended: every timer operation other than `turn_on` and `forward`
is total; `forward` raises only on an active timer with no clock attached,
so it does not fail whenever the timer is inactive or a clock is
attached. -/
theorem C6_amended_forward_total (t : Timer)
    (h : t.is_operating = false ∨ (∃ c, t.sim_clock = some c)) :
    t.forward.1 = none := by
  rcases h with h | ⟨c, hc⟩
  · simp [Timer.forward, h]
  · cases hop : t.is_operating
    · simp [Timer.forward, hop]
    · simp only [Timer.forward, hop, hc, if_true]
      split
      · rfl
      · split
        · rfl
        · split <;> rfl

/-- Witness for C6 amended: a fresh (inactive, clockless) timer. -/
theorem C6_witness : Timer.initDefault.forward.1 = none :=
  C6_amended_forward_total Timer.initDefault (Or.inl rfl)

/-- C7: the invariant "whenever `is_operating` is false, `is_event` is
false and `last_event_time` is `-inf`" holds for a freshly constructed
timer, is preserved by every lifecycle operation (attach, activate,
evaluate, deactivate, reset, detach — using the post-call state also when
the operation raises), and hence holds after every sequence of
operations. -/
theorem C7_timer_invariant :
    (∀ i : ℚ, TimerInv (Timer.init i)) ∧
    (∀ (t : Timer) (op : TimerOp), TimerInv t → TimerInv (t.apply op)) ∧
    (∀ (i : ℚ) (ops : List TimerOp),
      TimerInv (List.foldl Timer.apply (Timer.init i) ops)) := by
  have hinit : ∀ i : ℚ, TimerInv (Timer.init i) := fun _ _ => ⟨rfl, rfl⟩
  have hstep : ∀ (t : Timer) (op : TimerOp), TimerInv t → TimerInv (t.apply op) := by
    intro t op hinv
    cases op with
    | reset => intro _; exact ⟨rfl, rfl⟩
    | turnOff => intro _; exact ⟨rfl, rfl⟩
    | attach c => exact fun h => hinv h
    | detach => exact fun h => hinv h
    | turnOn i =>
        cases hsc : t.sim_clock with
        | none =>
            intro h
            simp only [Timer.apply, Timer.turn_on, hsc] at h ⊢
            exact hinv h
        | some c =>
            intro h
            cases i <;> simp [Timer.apply, Timer.turn_on, hsc] at h
    | forward =>
        intro h
        simp only [Timer.apply] at h ⊢
        rw [Timer.forward_is_operating] at h
        rw [Timer.forward_of_not_operating t h]
        exact hinv h
  refine ⟨hinit, hstep, ?_⟩
  intro i ops
  have hgen : ∀ (t : Timer), TimerInv t → TimerInv (List.foldl Timer.apply t ops) := by
    induction ops with
    | nil => exact fun t ht => ht
    | cons op rest ih => exact fun t ht => ih _ (hstep t op ht)
  exact hgen _ (hinit i)

/-- Witness for C7: the invariant after one `forward` on a fresh timer
with interval 1. -/
theorem C7_witness : TimerInv ((Timer.init 1).apply TimerOp.forward) :=
  C7_timer_invariant.2.1 (Timer.init 1) TimerOp.forward (fun _ => ⟨rfl, rfl⟩)

/-- C8 counterexample: the claim says deactivate-then-reactivate leaves
`last_event_time = -inf` so the next `forward()` always fires.  In the
code `turn_on` overwrites `last_event_time` with the clock time at
reactivation.  Concretely: interval 10, activate at time 0, deactivate,
reactivate at time 5 (so `last_event_time = 5`, not `-inf`), advance the
clock to 5.1 and call `forward()`: elapsed 0.1 < 10 - 1e-6, so `is_event`
becomes false, contradicting the claimed always-fire. -/
theorem C8_counterexample :
    ((((((Timer.init 10).attach_sim_clock { time := 0, time_res := 1/1000000 }).turn_on
        none).2.turn_off).attach_sim_clock { time := 5, time_res := 1/1000000 }).turn_on
        none).2.last_event_time = some 5 ∧
    (((((((Timer.init 10).attach_sim_clock { time := 0, time_res := 1/1000000 }).turn_on
        none).2.turn_off).attach_sim_clock { time := 5, time_res := 1/1000000 }).turn_on
        none).2.attach_sim_clock { time := 51/10, time_res := 1/1000000 }).forward.2.is_event
      = false := by
  refine ⟨rfl, ?_⟩
  norm_num [Timer.init, Timer.attach_sim_clock, Timer.turn_on, Timer.turn_off,
    Timer.forward, withinRes, elapsedGE, abs_le]

/-- C8 amended: `turn_off` does reset `last_event_time` to `-inf` (and
clears `is_event`), but reactivating with `turn_on` overwrites
`last_event_time` with the clock time at reactivation and sets
`is_event = true` immediately; a later `forward()` therefore fires by the
normal rule measured from the reactivation time, not unconditionally. -/
theorem C8_amended_reactivation_state (t : Timer) (c : SimClock) :
    t.turn_off.last_event_time = none ∧
    t.turn_off.is_event = false ∧
    ((t.turn_off.attach_sim_clock c).turn_on none).2.last_event_time = some c.time ∧
    ((t.turn_off.attach_sim_clock c).turn_on none).2.is_event = true :=
  ⟨rfl, rfl, rfl, rfl⟩

/-- C9: a freshly constructed logger is already recording: `is_operating`
is true on construction, and the first `append` call on a new logger
records its value under the given key without any prior `turn_on`. -/
theorem C9_fresh_logger_records (k : String) (v : ℚ) :
    Logger.init.is_operating = true ∧
    (Logger.init.append [(k, v)]).data = [(k, [v])] :=
  ⟨rfl, rfl⟩

/-- C10: a timer constructed with no interval argument has
`event_time_interval = -1`, exactly the sentinel tested by `forward`;
an active timer with an attached clock, interval `-1`, and a clock time
differing from `last_event_time` by more than the resolution (encoded by
`withinRes ... = false`, including `last_event_time = -inf`) sets
`is_event = true` and `last_event_time = clock.time` on every such
`forward()` call. -/
theorem C10_default_interval_always_fires :
    Timer.initDefault.event_time_interval = -1 ∧
    ∀ (t : Timer) (c : SimClock), t.sim_clock = some c → t.is_operating = true →
      t.event_time_interval = -1 →
      withinRes c.time t.last_event_time c.time_res = false →
      t.forward = (none, { t with is_event := true, last_event_time := some c.time }) := by
  refine ⟨rfl, ?_⟩
  intro t c hc hop hint hg
  simp [Timer.forward, hop, hc, hg, hint]

/-- Witness for C10: a default-interval timer, activated, with the clock
advanced from 0 to 1. -/
theorem C10_witness :
    ({ sim_clock := some { time := 2, time_res := 1 },
       event_time_interval := -1, is_operating := true, is_event := true,
       last_event_time := some 0 } : Timer).forward =
      (none,
        { sim_clock := some { time := 2, time_res := 1 },
          event_time_interval := -1, is_operating := true, is_event := true,
          last_event_time := some 2 }) :=
  C10_default_interval_always_fires.2 _ _ rfl rfl rfl
    (by norm_num [withinRes, abs_le])

end PySimEnv
